import Mathlib

/-!
Shallow embedding of the job-status polling and stage-derivation subsystem of
the GilbertBestilling frontend.

Embedded source files:
- src/hooks/useJobStatus.ts   (job-status poller: fetchJob, cancelJob, effect)
- src/hooks/usePipelineStage.ts (stage projector, current 8-stage catalogue)
- src/unnamed/part_003          (stage projector, legacy 6-stage catalogue)

The poller is single-threaded and event-loop driven: each network response is
an explicit input (`FetchResponse` / `CancelResponse`), and every state write
performed by the TypeScript code is an explicit field update on `HookState`.
An async function with one `await` is split into its synchronous prefix and
its continuation, so that interleavings of in-flight requests with id changes
can be expressed.
-/

namespace GilbertBestilling

/-! Job status enumeration from src/hooks/useJobStatus.ts lines 16-25. -/

inductive JobStatus
  | pending
  | downloading
  | running
  | classification_pending
  | uploading
  | completed
  | failed
  | cancellation_requested
  | cancelled
deriving DecidableEq

/-- Public job data returned by the API (src/hooks/useJobStatus.ts lines 28-40). -/
structure JobPublic where
  id : String
  status : JobStatus
  doc_name : String
  current_stage : Option String
  progress_percent : Nat
  message : String
  created_at : String
  started_at : Option String
  completed_at : Option String
  manifest_url : Option String
  error_message : Option String
deriving DecidableEq

/-- Terminal states where polling stops (src/hooks/useJobStatus.ts line 43). -/
def TERMINAL_STATUSES : List JobStatus :=
  [JobStatus.completed, JobStatus.failed, JobStatus.cancelled]

/-- The observable state of one `useJobStatus` instance: the four state
variables plus the two refs (`isTerminalRef`, `intervalRef`).
`intervalActive` models `intervalRef.current !== null`. -/
structure HookState where
  job : Option JobPublic
  error : Option String
  isLoading : Bool
  isPolling : Bool
  isTerminalRef : Bool
  intervalActive : Bool
deriving DecidableEq

/-- Outcome of one `fetch(url)` (plus body decoding) for a job GET:
a 2xx response with a decoded `JobPublic` body, a non-2xx HTTP response
(status code and statusText), or a rejected fetch / decode failure whose
`Error` carries `msg`. -/
inductive FetchResponse
  | ok (data : JobPublic)
  | httpError (status : Nat) (statusText : String)
  | networkError (msg : String)
deriving DecidableEq

/-- The `try`/`catch` body of `fetchJob` from the point where
`await fetch(url)` has resolved (src/hooks/useJobStatus.ts lines 103-127),
without the trailing `finally`. On 404 the thrown message is
"Job not found"; on any other non-2xx it is
"Failed to fetch job: " ++ statusText; a rejected fetch or decode failure
surfaces its own message. On success the job slot is replaced wholesale and,
when the returned status is terminal, the terminal ref is set, polling is
reported stopped and the interval is cleared immediately. -/
def applyResponse (r : FetchResponse) (s : HookState) : HookState :=
  match r with
  | FetchResponse.ok data =>
      let s1 := { s with job := some data }
      if TERMINAL_STATUSES.contains data.status then
        { s1 with isTerminalRef := true, isPolling := false, intervalActive := false }
      else
        s1
  | FetchResponse.httpError status statusText =>
      if status = 404 then
        { s with error := some "Job not found" }
      else
        { s with error := some ("Failed to fetch job: " ++ statusText) }
  | FetchResponse.networkError msg =>
      { s with error := some msg }

/-- Synchronous prefix of `fetchJob` up to its single suspension point
(src/hooks/useJobStatus.ts lines 81-99): the null-id guard, the
terminal-ref guard, `setIsLoading(true)` and `setError(null)`. The returned
Bool records whether a network request was issued (is now in flight). -/
def fetchJobStart (jobId : Option String) (s : HookState) : HookState × Bool :=
  match jobId with
  | none => (s, false)
  | some _ =>
      if s.isTerminalRef then (s, false)
      else ({ s with isLoading := true, error := none }, true)

/-- Continuation of `fetchJob` once its in-flight request resolves
(src/hooks/useJobStatus.ts lines 101-130, including the `finally` that sets
`isLoading := false`). Note that, as in the source, the continuation neither
compares the captured job id against the current one nor re-checks the
terminal ref: it applies the response unconditionally. -/
def fetchJobResume (r : FetchResponse) (s : HookState) : HookState :=
  { applyResponse r s with isLoading := false }

/-- One complete run of `fetchJob` (src/hooks/useJobStatus.ts lines 81-131),
the request resolving without interference: the synchronous prefix followed
by the continuation on response `r`. The Bool records whether a network
request was issued. Every failure mode is caught inside the function
(`catch` plus `finally`), so it is a total function: no exception reaches
the caller. -/
def fetchJob (jobId : Option String) (r : FetchResponse) (s : HookState) : HookState × Bool :=
  match jobId with
  | none => (s, false)
  | some _ =>
      if s.isTerminalRef then (s, false)
      else ({ applyResponse r { s with isLoading := true, error := none } with
                isLoading := false }, true)

/-- Outcome of the cancel POST (src/hooks/useJobStatus.ts lines 138-140):
a 2xx response, a non-2xx response (statusText), or a rejected fetch whose
`Error` message is `msg`. -/
inductive CancelResponse
  | ok
  | httpError (statusText : String)
  | networkError (msg : String)
deriving DecidableEq

/-- Result of one run of `cancelJob`: the final hook state, the boolean the
promise resolves to, whether the cancel POST was issued, and how many times
`fetchJob` was invoked as the reconciling refetch. -/
structure CancelOutcome where
  state : HookState
  returned : Bool
  postIssued : Bool
  refetchCount : Nat
deriving DecidableEq

/-- One complete run of `cancelJob` (src/hooks/useJobStatus.ts lines
133-153): null id returns false at once; otherwise the POST is issued. On a
2xx POST the hook awaits one `fetchJob` (whose own failures are caught
inside `fetchJob`, so the `catch` below cannot be reached from it) and
resolves true. On a non-2xx POST the thrown message
"Failed to cancel job: " ++ statusText is caught and stored in `error`; a
rejected POST stores its own message; both resolve false. The function is
total over every enumerated outcome: `cancel()` never rejects. -/
def cancelJob (jobId : Option String) (c : CancelResponse) (r : FetchResponse)
    (s : HookState) : CancelOutcome :=
  match jobId with
  | none => ⟨s, false, false, 0⟩
  | some jid =>
      match c with
      | CancelResponse.ok => ⟨(fetchJob (some jid) r s).1, true, true, 1⟩
      | CancelResponse.httpError statusText =>
          ⟨{ s with error := some ("Failed to cancel job: " ++ statusText) }, false, true, 0⟩
      | CancelResponse.networkError msg =>
          ⟨{ s with error := some msg }, false, true, 0⟩

/-- One firing of the interval callback (src/hooks/useJobStatus.ts lines
170-183): the callback reads the terminal flag through the ref (never a
stale closure); if set it clears the interval, reports polling stopped and
performs no fetch, otherwise it runs `fetchJob`. The Bool records whether a
network request was issued. -/
def intervalTick (jobId : Option String) (r : FetchResponse) (s : HookState) :
    HookState × Bool :=
  if s.isTerminalRef then
    ({ s with intervalActive := false, isPolling := false }, false)
  else
    fetchJob jobId r s

/-- Run the timer across a sequence of would-be ticks, each with its network
outcome. A tick only fires while the interval is registered
(`intervalActive`); once `clearInterval` has run, no further callback
fires. Returns the final state and the number of network requests issued by
the timer. -/
def runTicks (jobId : Option String) : List FetchResponse → HookState → HookState × Nat
  | [], s => (s, 0)
  | r :: rs, s =>
      if s.intervalActive then
        let t := intervalTick jobId r s
        let rest := runTicks jobId rs t.1
        (rest.1, (if t.2 then 1 else 0) + rest.2)
      else
        runTicks jobId rs s

/-- The effect body on activation (src/hooks/useJobStatus.ts lines 156-183):
with a null id or disabled polling it only reports `isPolling := false`;
otherwise it resets the terminal ref unconditionally, starts the initial
fetch (the synchronous prefix only: `fetchJob()` is not awaited), reports
polling and registers the interval. The Bool records whether the initial
request is now in flight. -/
def activate (jobId : Option String) (enabled : Bool) (s : HookState) : HookState × Bool :=
  match jobId with
  | none => ({ s with isPolling := false }, false)
  | some jid =>
      if enabled then
        let s1 := { s with isTerminalRef := false }
        let f := fetchJobStart (some jid) s1
        ({ f.1 with isPolling := true, intervalActive := true }, f.2)
      else
        ({ s with isPolling := false }, false)

/-- The effect cleanup (src/hooks/useJobStatus.ts lines 185-191): clear any
registered interval and report polling stopped. It cannot cancel an
already-in-flight fetch. -/
def cleanup (s : HookState) : HookState :=
  { s with intervalActive := false, isPolling := false }

/-- Does this network outcome carry a terminal job status? -/
def terminalResponse : FetchResponse → Bool
  | FetchResponse.ok d => TERMINAL_STATUSES.contains d.status
  | FetchResponse.httpError _ _ => false
  | FetchResponse.networkError _ => false

/-! Stage projector. Input type from src/fastapi/api.ts lines 95-104. -/

/-- The status union of `PipelineStatus` (src/fastapi/api.ts line 97). -/
inductive PStatus
  | pending
  | downloading
  | running
  | completed
  | classification_pending
  | classification_complete
  | uploading
  | failed
  | cancelled
  | cancellation_requested
deriving DecidableEq

/-- The optional `progress` object of `PipelineStatus`
(src/fastapi/api.ts lines 99-103). -/
structure StatusProgress where
  percent_overall : Nat
  current_phase : Option String
  message : String
deriving DecidableEq

/-- `PipelineStatus` (src/fastapi/api.ts lines 95-104). -/
structure PipelineStatus where
  run_id : String
  status : PStatus
  message : String
  progress : Option StatusProgress
deriving DecidableEq

/-- One entry of a stage catalogue: key, display label, order index. -/
structure StageEntry (κ : Type) where
  key : κ
  label : String
  order : Nat
deriving DecidableEq

/-- JavaScript `Math.round` on the non-negative rational num/den:
round-half-up, i.e. ⌊num/den + 1/2⌋. For both fixed catalogues below the
IEEE-double evaluation of `Math.round((order / (len - 1)) * 100)` agrees
with this exact rational rounding at every order index. -/
def jsRound (num den : Nat) : Nat := (2 * num + den) / (2 * den)

/-- The record returned by `usePipelineStage`
(src/hooks/usePipelineStage.ts lines 55-64; identical shape in
src/unnamed/part_003 lines 37-46). -/
structure UsePipelineStageReturn (κ : Type) where
  currentStage : κ
  stageLabel : String
  stageProgress : Nat
  isJsonReady : Bool
  stageMessage : String
  completedStages : List κ
  upcomingStages : List κ
  isComplete : Bool
deriving DecidableEq

/-- Stage keys of the current catalogue
(src/hooks/usePipelineStage.ts lines 5-16). -/
inductive PipelineStage
  | downloading
  | detection
  | intake
  | classification
  | enrichment
  | integration
  | uploading
  | complete
deriving DecidableEq

/-- The ordered 8-stage catalogue (src/hooks/usePipelineStage.ts lines 5-14). -/
def PIPELINE_STAGES : List (StageEntry PipelineStage) :=
  [⟨PipelineStage.downloading, "Downloading", 0⟩,
   ⟨PipelineStage.detection, "Detection", 1⟩,
   ⟨PipelineStage.intake, "Intake", 2⟩,
   ⟨PipelineStage.classification, "Classification", 3⟩,
   ⟨PipelineStage.enrichment, "Enrichment", 4⟩,
   ⟨PipelineStage.integration, "Integration", 5⟩,
   ⟨PipelineStage.uploading, "Uploading", 6⟩,
   ⟨PipelineStage.complete, "Complete", 7⟩]

/-- The coarse status-to-stage fallback record
(src/hooks/usePipelineStage.ts lines 19-29). A status string absent from
the record yields `undefined`, modelled as `none`; the source's
`|| 'detection'` default is applied at the use site. -/
def STATUS_TO_STAGE : PStatus → Option PipelineStage
  | PStatus.pending => some PipelineStage.detection
  | PStatus.downloading => some PipelineStage.downloading
  | PStatus.running => some PipelineStage.detection
  | PStatus.classification_pending => some PipelineStage.classification
  | PStatus.classification_complete => some PipelineStage.enrichment
  | PStatus.uploading => some PipelineStage.uploading
  | PStatus.completed => some PipelineStage.complete
  | PStatus.failed => some PipelineStage.detection
  | PStatus.cancelled => some PipelineStage.detection
  | PStatus.cancellation_requested => none

/-- The backend `current_stage` value map
(src/hooks/usePipelineStage.ts lines 32-41); unknown strings yield
`undefined`, modelled as `none`. The empty string is falsy in the source
guard `backendStage && BACKEND_STAGE_MAP[backendStage]`, and it is also
absent from the record, so mapping it to `none` is faithful. -/
def BACKEND_STAGE_MAP : String → Option PipelineStage
  | "downloading" => some PipelineStage.downloading
  | "detection" => some PipelineStage.detection
  | "intake" => some PipelineStage.intake
  | "classification" => some PipelineStage.classification
  | "enrichment" => some PipelineStage.enrichment
  | "integration" => some PipelineStage.integration
  | "uploading" => some PipelineStage.uploading
  | "complete" => some PipelineStage.complete
  | _ => none

/-- Stage messages (src/hooks/usePipelineStage.ts lines 44-53). -/
def STAGE_MESSAGES : PipelineStage → String
  | PipelineStage.downloading => "Downloading input document from storage"
  | PipelineStage.detection => "Detecting figures, tables, and visual elements in your document"
  | PipelineStage.intake => "Processing document content and extracting structured data"
  | PipelineStage.classification => "Classifying elements by type and reviewing classifications"
  | PipelineStage.enrichment => "Enriching content with additional metadata and context"
  | PipelineStage.integration => "Building the final document integration JSON"
  | PipelineStage.uploading => "Uploading results to cloud storage"
  | PipelineStage.complete => "All processing complete. Results are ready."

/-- `PIPELINE_STAGES.find(s => s.key === k)?.order ?? 1`
(src/hooks/usePipelineStage.ts line 92). -/
def orderOf (k : PipelineStage) : Nat :=
  ((PIPELINE_STAGES.find? (fun e => e.key == k)).map (fun e => e.order)).getD 1

/-- `PIPELINE_STAGES.find(s => s.key === k)?.label || 'Unknown'`
(src/hooks/usePipelineStage.ts line 93); no label is the empty string, so
`||` and `??` coincide. -/
def labelOf (k : PipelineStage) : String :=
  ((PIPELINE_STAGES.find? (fun e => e.key == k)).map (fun e => e.label)).getD "Unknown"

/-- The stage projector over the current 8-stage catalogue
(src/hooks/usePipelineStage.ts lines 66-122). The `useMemo` wrapper only
caches the result of this pure computation. -/
def usePipelineStage (status : Option PipelineStatus) : UsePipelineStageReturn PipelineStage :=
  match status with
  | none =>
      { currentStage := PipelineStage.detection
        stageLabel := "Queued"
        stageProgress := 0
        isJsonReady := false
        stageMessage := "Document is queued for processing"
        completedStages := []
        upcomingStages := PIPELINE_STAGES.map (fun e => e.key)
        isComplete := false }
  | some st =>
      let backendStage := st.progress.bind (fun p => p.current_phase)
      let currentStage : PipelineStage :=
        match backendStage with
        | some bs =>
            match BACKEND_STAGE_MAP bs with
            | some k => k
            | none => (STATUS_TO_STAGE st.status).getD PipelineStage.detection
        | none => (STATUS_TO_STAGE st.status).getD PipelineStage.detection
      let currentOrder := orderOf currentStage
      { currentStage := currentStage
        stageLabel := labelOf currentStage
        stageProgress := jsRound (currentOrder * 100) (PIPELINE_STAGES.length - 1)
        isJsonReady := st.status == PStatus.completed
        stageMessage := STAGE_MESSAGES currentStage
        completedStages := (PIPELINE_STAGES.filter (fun e => e.order < currentOrder)).map
          (fun e => e.key)
        upcomingStages := (PIPELINE_STAGES.filter (fun e => currentOrder < e.order)).map
          (fun e => e.key)
        isComplete := st.status == PStatus.completed }

namespace Part003

/-- Stage keys of the legacy catalogue (src/unnamed/part_003 lines 5-14). -/
inductive PipelineStage
  | detection
  | intake
  | classification
  | enrichment
  | integration
  | complete
deriving DecidableEq

/-- The ordered legacy 6-stage catalogue (src/unnamed/part_003 lines 5-12);
order indices start at 1. -/
def PIPELINE_STAGES : List (StageEntry PipelineStage) :=
  [⟨PipelineStage.detection, "Detection", 1⟩,
   ⟨PipelineStage.intake, "Intake", 2⟩,
   ⟨PipelineStage.classification, "Classification", 3⟩,
   ⟨PipelineStage.enrichment, "Enrichment", 4⟩,
   ⟨PipelineStage.integration, "Integration", 5⟩,
   ⟨PipelineStage.complete, "Complete", 6⟩]

/-- The legacy status-to-stage record (src/unnamed/part_003 lines 17-25);
statuses absent from the record yield `undefined`, modelled as `none`. -/
def STATUS_TO_STAGE : PStatus → Option PipelineStage
  | PStatus.pending => some PipelineStage.detection
  | PStatus.running => some PipelineStage.detection
  | PStatus.classification_pending => some PipelineStage.classification
  | PStatus.classification_complete => some PipelineStage.enrichment
  | PStatus.completed => some PipelineStage.complete
  | PStatus.failed => some PipelineStage.detection
  | PStatus.cancelled => some PipelineStage.detection
  | _ => none

/-- Stage messages (src/unnamed/part_003 lines 28-35). -/
def STAGE_MESSAGES : PipelineStage → String
  | PipelineStage.detection => "Detecting figures, tables, and visual elements in your document"
  | PipelineStage.intake => "Processing document content and extracting structured data"
  | PipelineStage.classification => "Classifying elements by type and reviewing classifications"
  | PipelineStage.enrichment => "Enriching content with additional metadata and context"
  | PipelineStage.integration => "Building the final document integration JSON"
  | PipelineStage.complete => "All processing complete. Results are ready."

/-- `PIPELINE_STAGES.find(s => s.key === k)?.order || 1`
(src/unnamed/part_003 line 64); every order in this catalogue is at least
1, never the falsy 0, so `||` and `??` coincide. -/
def orderOf (k : PipelineStage) : Nat :=
  ((PIPELINE_STAGES.find? (fun e => e.key == k)).map (fun e => e.order)).getD 1

/-- `PIPELINE_STAGES.find(s => s.key === k)?.label || 'Unknown'`
(src/unnamed/part_003 line 65). -/
def labelOf (k : PipelineStage) : String :=
  ((PIPELINE_STAGES.find? (fun e => e.key == k)).map (fun e => e.label)).getD "Unknown"

/-- The legacy stage projector (src/unnamed/part_003 lines 48-94): no
backend-phase lookup, 1-based orders, progress computed from
`currentOrder - 1` over 5 gaps. -/
def usePipelineStage (status : Option PipelineStatus) : UsePipelineStageReturn PipelineStage :=
  match status with
  | none =>
      { currentStage := PipelineStage.detection
        stageLabel := "Queued"
        stageProgress := 0
        isJsonReady := false
        stageMessage := "Document is queued for processing"
        completedStages := []
        upcomingStages := PIPELINE_STAGES.map (fun e => e.key)
        isComplete := false }
  | some st =>
      let currentStage := (STATUS_TO_STAGE st.status).getD PipelineStage.detection
      let currentOrder := orderOf currentStage
      { currentStage := currentStage
        stageLabel := labelOf currentStage
        stageProgress := jsRound ((currentOrder - 1) * 100) (PIPELINE_STAGES.length - 1)
        isJsonReady := st.status == PStatus.completed
        stageMessage := STAGE_MESSAGES currentStage
        completedStages := (PIPELINE_STAGES.filter (fun e => e.order < currentOrder)).map
          (fun e => e.key)
        upcomingStages := (PIPELINE_STAGES.filter (fun e => currentOrder < e.order)).map
          (fun e => e.key)
        isComplete := st.status == PStatus.completed }

end Part003

/-! Concrete fixtures used by witnesses and counterexamples. -/

/-- A job with id "A" that has reached the terminal status `completed`. -/
def jobA : JobPublic :=
  { id := "A", status := JobStatus.completed, doc_name := "a.pdf", current_stage := none
    progress_percent := 100, message := "done", created_at := "t0", started_at := some "t1"
    completed_at := some "t2", manifest_url := some "m", error_message := none }

/-- A job with id "B" in the non-terminal status `running`. -/
def jobB : JobPublic :=
  { id := "B", status := JobStatus.running, doc_name := "b.pdf", current_stage := none
    progress_percent := 40, message := "working", created_at := "t3", started_at := some "t4"
    completed_at := none, manifest_url := none, error_message := none }

/-- Freshly mounted hook state: nothing fetched, no timer. -/
def sIdle : HookState :=
  { job := none, error := none, isLoading := false, isPolling := false
    isTerminalRef := false, intervalActive := false }

/-- Hook state of an active non-terminal poll session. -/
def sActive : HookState :=
  { job := some jobB, error := none, isLoading := false, isPolling := true
    isTerminalRef := false, intervalActive := true }

/-- Hook state after a terminal status has been observed. -/
def sTerm : HookState :=
  { job := some jobA, error := none, isLoading := false, isPolling := false
    isTerminalRef := true, intervalActive := false }

/-- The race trace of the C2 scenario: activate for job id "A" (the request
for A goes in flight), change the id to B (cleanup plus re-activation, the
request for B goes in flight), resolve the response for B, then resolve the
stale response for A. -/
def cexTrace : HookState :=
  fetchJobResume (FetchResponse.ok jobA)
    (fetchJobResume (FetchResponse.ok jobB)
      ((activate (some "B") true (cleanup ((activate (some "A") true sIdle).1))).1))

/-- A `PipelineStatus` with status `running` and no progress object. -/
def stRunning : PipelineStatus :=
  { run_id := "r1", status := PStatus.running, message := "working", progress := none }

/-- A `PipelineStatus` with status `downloading` and no progress object. -/
def stDownloading : PipelineStatus :=
  { run_id := "r1", status := PStatus.downloading, message := "dl", progress := none }

/-- A `PipelineStatus` with status `completed` and no progress object. -/
def stCompleted : PipelineStatus :=
  { run_id := "r1", status := PStatus.completed, message := "done", progress := none }

/-- A `PipelineStatus` with status `classification_complete`. -/
def stClassComplete : PipelineStatus :=
  { run_id := "r1", status := PStatus.classification_complete, message := "rev", progress := none }

/-- A `PipelineStatus` carrying a backend-reported phase "enrichment" while
its coarse status is `running`. -/
def stPhaseEnrichment : PipelineStatus :=
  { run_id := "r1", status := PStatus.running, message := "working"
    progress := some { percent_overall := 60, current_phase := some "enrichment", message := "e" } }

/-- A `PipelineStatus` with status `cancellation_requested`, which is absent
from both status-to-stage records. -/
def stCancelReq : PipelineStatus :=
  { run_id := "r1", status := PStatus.cancellation_requested, message := "c", progress := none }

/-! Theorems. -/

/-- Helper: from any state whose terminal flag is set, the timer issues no
network request, however many ticks are attempted. -/
theorem runTicks_terminal_no_fetch (jobId : Option String) (rs : List FetchResponse)
    (s : HookState) (h : s.isTerminalRef = true) : (runTicks jobId rs s).2 = 0 := by
  induction rs generalizing s with
  | nil => rfl
  | cons r rs ih =>
      by_cases hA : s.intervalActive
      · simp only [runTicks, hA, if_true, intervalTick, h]
        simpa [h] using ih { s with intervalActive := false, isPolling := false } h
      · simp only [runTicks, hA]
        simpa [hA] using ih s h

/-- C1: during an active poll, a fetch that ends in an error or returns a
non-terminal status leaves the interval registered (and the terminal flag
unset, so the timer keeps fetching), while a fetch returning a status in
TERMINAL_STATUSES sets the terminal flag, clears the interval and sets
isPolling false; and from any terminal-flagged state the timer issues no
further network request, whatever tick sequence follows — only a fresh
activation (which resets the flag) could restart fetching. -/
theorem poll_stop_on_terminal_only :
    (∀ (jid : String) (r : FetchResponse) (s : HookState),
       s.isTerminalRef = false → terminalResponse r = false →
       (fetchJob (some jid) r s).1.intervalActive = s.intervalActive ∧
       (fetchJob (some jid) r s).1.isTerminalRef = false ∧
       (fetchJob (some jid) r s).1.isPolling = s.isPolling) ∧
    (∀ (jid : String) (d : JobPublic) (s : HookState),
       s.isTerminalRef = false → TERMINAL_STATUSES.contains d.status = true →
       (fetchJob (some jid) (FetchResponse.ok d) s).1.isTerminalRef = true ∧
       (fetchJob (some jid) (FetchResponse.ok d) s).1.intervalActive = false ∧
       (fetchJob (some jid) (FetchResponse.ok d) s).1.isPolling = false) ∧
    (∀ (jobId : Option String) (rs : List FetchResponse) (s : HookState),
       s.isTerminalRef = true → (runTicks jobId rs s).2 = 0) := by
  refine ⟨?_, ?_, fun jobId rs s h => runTicks_terminal_no_fetch jobId rs s h⟩
  · intro jid r s h hr
    cases r with
    | ok d =>
        simp only [terminalResponse] at hr
        have hr2 : d.status ∉ TERMINAL_STATUSES := by simpa using hr
        simp [fetchJob, h, applyResponse, hr2]
    | httpError status statusText =>
        by_cases h4 : status = 404 <;> simp [fetchJob, h, applyResponse, h4]
    | networkError msg =>
        simp [fetchJob, h, applyResponse]
  · intro jid d s h hd
    have hd2 : d.status ∈ TERMINAL_STATUSES := by simpa using hd
    simp [fetchJob, h, applyResponse, hd2]

/-- C1 witness at concrete inputs: a network error leaves the interval of an
active session registered; a completed response tears polling down; one more
tick from the terminal state issues no request. -/
theorem poll_stop_on_terminal_only_witness :
    ((fetchJob (some "j") (FetchResponse.networkError "net down") sActive).1.intervalActive
        = sActive.intervalActive ∧
     (fetchJob (some "j") (FetchResponse.networkError "net down") sActive).1.isTerminalRef
        = false ∧
     (fetchJob (some "j") (FetchResponse.networkError "net down") sActive).1.isPolling
        = sActive.isPolling) ∧
    ((fetchJob (some "j") (FetchResponse.ok jobA) sActive).1.isTerminalRef = true ∧
     (fetchJob (some "j") (FetchResponse.ok jobA) sActive).1.intervalActive = false ∧
     (fetchJob (some "j") (FetchResponse.ok jobA) sActive).1.isPolling = false) ∧
    (runTicks (some "j") [FetchResponse.networkError "x"] sTerm).2 = 0 :=
  ⟨poll_stop_on_terminal_only.1 "j" (FetchResponse.networkError "net down") sActive rfl rfl,
   poll_stop_on_terminal_only.2.1 "j" jobA sActive rfl (by decide),
   poll_stop_on_terminal_only.2.2 (some "j") [FetchResponse.networkError "x"] sTerm rfl⟩

/-- C2 counterexample: run the spec scenario (activate for "A" with the A
request left in flight, switch to "B", resolve B's response, then resolve the
stale response for A). The job slot ends up holding the data fetched for "A",
so the late response is not discarded and cross-job state bleed occurs. -/
theorem stale_fetch_overwrite_cex :
    cexTrace.job = some jobA ∧ jobA.id = "A" ∧ jobB.id = "B" ∧ jobA.id ≠ jobB.id :=
  ⟨rfl, rfl, rfl, by decide⟩

/-- C2 amended: the continuation of `fetchJob` performs no captured-id versus
current-id comparison; it writes whatever data its response carries into the
job slot unconditionally, so after a job id change the slot holds whichever
response resolved last (last write wins), including one fetched for the
abandoned id. -/
theorem stale_fetch_resume_writes_response (d : JobPublic) (s : HookState) :
    (fetchJobResume (FetchResponse.ok d) s).job = some d := by
  simp only [fetchJobResume, applyResponse]
  split <;> rfl

/-- C3: a fetch performed by the poller (terminal flag unset) that receives a
404 stores the distinct error "Job not found"; any other non-2xx stores the
generic message built from the statusText; in both cases the previously
stored job state is left unchanged. `fetchJob` is a total function over every
enumerated outcome, embedding that no exception reaches the caller. -/
theorem fetch_error_messages_preserve_job (jid statusText : String) (st : Nat)
    (s : HookState) (hterm : s.isTerminalRef = false) (hst : st ≠ 404) :
    (fetchJob (some jid) (FetchResponse.httpError 404 statusText) s).1.error
        = some "Job not found" ∧
    (fetchJob (some jid) (FetchResponse.httpError 404 statusText) s).1.job = s.job ∧
    (fetchJob (some jid) (FetchResponse.httpError st statusText) s).1.error
        = some ("Failed to fetch job: " ++ statusText) ∧
    (fetchJob (some jid) (FetchResponse.httpError st statusText) s).1.job = s.job := by
  simp [fetchJob, hterm, applyResponse, hst]

/-- C3 witness: the 404 and 500 branches evaluated in an active session. -/
theorem fetch_error_messages_preserve_job_witness :
    (fetchJob (some "j") (FetchResponse.httpError 404 "Not Found") sActive).1.error
        = some "Job not found" ∧
    (fetchJob (some "j") (FetchResponse.httpError 404 "Not Found") sActive).1.job
        = sActive.job ∧
    (fetchJob (some "j") (FetchResponse.httpError 500 "Not Found") sActive).1.error
        = some ("Failed to fetch job: " ++ "Not Found") ∧
    (fetchJob (some "j") (FetchResponse.httpError 500 "Not Found") sActive).1.job
        = sActive.job :=
  fetch_error_messages_preserve_job "j" "Not Found" 500 sActive rfl (by decide)

/-- C4: with a non-null job id, `cancelJob` always issues the POST; on a 2xx
POST it performs exactly one reconciling refetch (one `fetchJob` invocation)
and resolves true; on a non-2xx POST or a rejected POST it resolves false,
stores the corresponding error string and leaves the job slot unchanged,
performing no refetch. Totality over every enumerated outcome embeds that
`cancel()` never rejects. -/
theorem cancel_contract (jid : String) (r : FetchResponse) (s : HookState) :
    (∀ c : CancelResponse, (cancelJob (some jid) c r s).postIssued = true) ∧
    (cancelJob (some jid) CancelResponse.ok r s
        = ⟨(fetchJob (some jid) r s).1, true, true, 1⟩) ∧
    (∀ statusText : String,
       (cancelJob (some jid) (CancelResponse.httpError statusText) r s).returned = false ∧
       (cancelJob (some jid) (CancelResponse.httpError statusText) r s).state.error
          = some ("Failed to cancel job: " ++ statusText) ∧
       (cancelJob (some jid) (CancelResponse.httpError statusText) r s).state.job = s.job ∧
       (cancelJob (some jid) (CancelResponse.httpError statusText) r s).refetchCount = 0) ∧
    (∀ msg : String,
       (cancelJob (some jid) (CancelResponse.networkError msg) r s).returned = false ∧
       (cancelJob (some jid) (CancelResponse.networkError msg) r s).state.error = some msg ∧
       (cancelJob (some jid) (CancelResponse.networkError msg) r s).state.job = s.job ∧
       (cancelJob (some jid) (CancelResponse.networkError msg) r s).refetchCount = 0) :=
  ⟨fun c => by cases c <;> rfl, rfl,
   fun statusText => ⟨rfl, rfl, rfl, rfl⟩,
   fun msg => ⟨rfl, rfl, rfl, rfl⟩⟩

/-- C5: calling `refetch()` (that is, `fetchJob`) when the terminal flag is
already set is a no-op: it issues no network request and leaves the state,
hence every observable field (job, error, isLoading, isPolling), unchanged. -/
theorem refetch_terminal_noop (jobId : Option String) (r : FetchResponse)
    (s : HookState) (h : s.isTerminalRef = true) :
    fetchJob jobId r s = (s, false) := by
  cases jobId with
  | none => rfl
  | some jid => simp [fetchJob, h]

/-- C5 witness: refetching the terminal state `sTerm` changes nothing and
issues no request. -/
theorem refetch_terminal_noop_witness :
    fetchJob (some "j") (FetchResponse.ok jobB) sTerm = (sTerm, false) :=
  refetch_terminal_noop (some "j") (FetchResponse.ok jobB) sTerm rfl

/-- C10: whenever the cancel POST returns 2xx, `cancelJob` resolves true for
every outcome `r` of the follow-up refetch — `fetchJob` catches all of its own
failures and never rejects, so the returned boolean reflects only the POST. -/
theorem cancel_true_despite_refetch_failure (jid : String) (r : FetchResponse)
    (s : HookState) : (cancelJob (some jid) CancelResponse.ok r s).returned = true := rfl

/-- C6 counterexample: on null input the current 8-stage projector returns
'detection' as currentStage, but the first stage of its catalogue is
'downloading', so the null projection does not use the first catalogue
stage. -/
theorem null_projection_first_stage_cex :
    (usePipelineStage none).currentStage = PipelineStage.detection ∧
    (PIPELINE_STAGES.map (fun e => e.key)).head? = some PipelineStage.downloading ∧
    PipelineStage.detection ≠ PipelineStage.downloading :=
  ⟨rfl, rfl, by decide⟩

/-- C6 amended: on null input both projector versions return the
deterministic queued projection — currentStage 'detection' (the first
catalogue stage only in the legacy 6-stage catalogue; in the current 8-stage
catalogue 'downloading' comes first), label "Queued", stageProgress 0,
isJsonReady false, isComplete false, empty completedStages, the full
catalogue as upcomingStages and the generic waiting message — without
error. -/
theorem null_projection_queued :
    usePipelineStage none =
      { currentStage := PipelineStage.detection, stageLabel := "Queued", stageProgress := 0
        isJsonReady := false, stageMessage := "Document is queued for processing"
        completedStages := []
        upcomingStages := [PipelineStage.downloading, PipelineStage.detection,
          PipelineStage.intake, PipelineStage.classification, PipelineStage.enrichment,
          PipelineStage.integration, PipelineStage.uploading, PipelineStage.complete]
        isComplete := false } ∧
    Part003.usePipelineStage none =
      { currentStage := Part003.PipelineStage.detection, stageLabel := "Queued"
        stageProgress := 0, isJsonReady := false
        stageMessage := "Document is queued for processing"
        completedStages := []
        upcomingStages := [Part003.PipelineStage.detection, Part003.PipelineStage.intake,
          Part003.PipelineStage.classification, Part003.PipelineStage.enrichment,
          Part003.PipelineStage.integration, Part003.PipelineStage.complete]
        isComplete := false } ∧
    (Part003.PIPELINE_STAGES.map (fun e => e.key)).head? = some Part003.PipelineStage.detection ∧
    (usePipelineStage none).upcomingStages = PIPELINE_STAGES.map (fun e => e.key) ∧
    (Part003.usePipelineStage none).upcomingStages
        = Part003.PIPELINE_STAGES.map (fun e => e.key) :=
  ⟨rfl, rfl, rfl, rfl, rfl⟩

/-- C7: for every non-null input, both projector versions compute
stageProgress as round-half-up of (zero-based index of the current stage) /
(catalogue length - 1) × 100 — in the legacy catalogue orders are 1-based,
so its zero-based index is currentOrder - 1; any input resolved to the first
catalogue entry yields progress 0 and any input resolved to the last yields
100; and for every catalogue length L ≥ 2 the rounding formula anchors at
exactly 0 on index 0 and exactly 100 on index L - 1. -/
theorem stageProgress_formula :
    (∀ st : PipelineStatus,
       (usePipelineStage (some st)).stageProgress
         = jsRound (orderOf (usePipelineStage (some st)).currentStage * 100)
             (PIPELINE_STAGES.length - 1)) ∧
    (∀ st : PipelineStatus,
       (usePipelineStage (some st)).currentStage = PipelineStage.downloading →
       (usePipelineStage (some st)).stageProgress = 0) ∧
    (∀ st : PipelineStatus,
       (usePipelineStage (some st)).currentStage = PipelineStage.complete →
       (usePipelineStage (some st)).stageProgress = 100) ∧
    (∀ st : PipelineStatus,
       (Part003.usePipelineStage (some st)).stageProgress
         = jsRound ((Part003.orderOf (Part003.usePipelineStage (some st)).currentStage - 1) * 100)
             (Part003.PIPELINE_STAGES.length - 1)) ∧
    (∀ st : PipelineStatus,
       (Part003.usePipelineStage (some st)).currentStage = Part003.PipelineStage.detection →
       (Part003.usePipelineStage (some st)).stageProgress = 0) ∧
    (∀ st : PipelineStatus,
       (Part003.usePipelineStage (some st)).currentStage = Part003.PipelineStage.complete →
       (Part003.usePipelineStage (some st)).stageProgress = 100) ∧
    (∀ L : Nat, 2 ≤ L → jsRound 0 (L - 1) = 0 ∧ jsRound ((L - 1) * 100) (L - 1) = 100) := by
  have h1 : ∀ st : PipelineStatus,
      (usePipelineStage (some st)).stageProgress
        = jsRound (orderOf (usePipelineStage (some st)).currentStage * 100)
            (PIPELINE_STAGES.length - 1) := fun st => rfl
  have h3 : ∀ st : PipelineStatus,
      (Part003.usePipelineStage (some st)).stageProgress
        = jsRound ((Part003.orderOf (Part003.usePipelineStage (some st)).currentStage - 1) * 100)
            (Part003.PIPELINE_STAGES.length - 1) := fun st => rfl
  refine ⟨h1, ?_, ?_, h3, ?_, ?_, ?_⟩
  · intro st h
    rw [h1 st, h]
    decide
  · intro st h
    rw [h1 st, h]
    decide
  · intro st h
    rw [h3 st, h]
    decide
  · intro st h
    rw [h3 st, h]
    decide
  · intro L hL
    have hd : 0 < L - 1 := by omega
    constructor
    · show (2 * 0 + (L - 1)) / (2 * (L - 1)) = 0
      apply Nat.div_eq_of_lt
      omega
    · show (2 * ((L - 1) * 100) + (L - 1)) / (2 * (L - 1)) = 100
      have e1 : 2 * ((L - 1) * 100) + (L - 1) = (L - 1) * 201 := by ring
      have e2 : 2 * (L - 1) = (L - 1) * 2 := by ring
      rw [e1, e2, Nat.mul_div_mul_left _ _ hd]

/-- C7 witness: status downloading resolves to the first catalogue stage and
yields progress 0, status completed resolves to the last and yields 100; the
generic anchoring instance at catalogue length 2. -/
theorem stageProgress_formula_witness :
    (usePipelineStage (some stDownloading)).stageProgress = 0 ∧
    (usePipelineStage (some stCompleted)).stageProgress = 100 ∧
    (Part003.usePipelineStage (some stCompleted)).stageProgress = 100 ∧
    (jsRound 0 (2 - 1) = 0 ∧ jsRound ((2 - 1) * 100) (2 - 1) = 100) :=
  ⟨stageProgress_formula.2.1 stDownloading rfl,
   stageProgress_formula.2.2.1 stCompleted rfl,
   stageProgress_formula.2.2.2.2.2.1 stCompleted rfl,
   stageProgress_formula.2.2.2.2.2.2 2 (by decide)⟩

/-- C8: for both projector versions, isJsonReady holds exactly when the
input is non-null and its status is `completed`; it is false for
`classification_complete`, for the other terminal statuses and for null
input. -/
theorem isJsonReady_iff_completed :
    (∀ ost : Option PipelineStatus,
       (usePipelineStage ost).isJsonReady = true
         ↔ ∃ st : PipelineStatus, ost = some st ∧ st.status = PStatus.completed) ∧
    (∀ st : PipelineStatus, st.status ≠ PStatus.completed →
       (usePipelineStage (some st)).isJsonReady = false) ∧
    (usePipelineStage none).isJsonReady = false ∧
    (∀ ost : Option PipelineStatus,
       (Part003.usePipelineStage ost).isJsonReady = true
         ↔ ∃ st : PipelineStatus, ost = some st ∧ st.status = PStatus.completed) ∧
    (∀ st : PipelineStatus, st.status ≠ PStatus.completed →
       (Part003.usePipelineStage (some st)).isJsonReady = false) ∧
    (Part003.usePipelineStage none).isJsonReady = false := by
  refine ⟨?_, ?_, rfl, ?_, ?_, rfl⟩
  · intro ost
    cases ost with
    | none => simp [usePipelineStage]
    | some st => simp [usePipelineStage]
  · intro st h
    simp [usePipelineStage, h]
  · intro ost
    cases ost with
    | none => simp [Part003.usePipelineStage]
    | some st => simp [Part003.usePipelineStage]
  · intro st h
    simp [Part003.usePipelineStage, h]

/-- C8 witness: true on a completed status, false on classification_complete
and on the terminal statuses failed and cancelled. -/
theorem isJsonReady_iff_completed_witness :
    (usePipelineStage (some stCompleted)).isJsonReady = true ∧
    (usePipelineStage (some stClassComplete)).isJsonReady = false ∧
    (Part003.usePipelineStage (some stClassComplete)).isJsonReady = false :=
  ⟨(isJsonReady_iff_completed.1 (some stCompleted)).mpr ⟨stCompleted, rfl, rfl⟩,
   isJsonReady_iff_completed.2.1 stClassComplete (by decide),
   isJsonReady_iff_completed.2.2.2.2.1 stClassComplete (by decide)⟩

/-- C9: stage resolution precedence of the current projector: a
backend-reported phase that maps to a known catalogue key wins; otherwise
the coarse STATUS_TO_STAGE record decides (and it maps failed and cancelled
to detection); otherwise the default is detection. -/
theorem stage_resolution_precedence :
    (∀ (st : PipelineStatus) (bs : String) (k : PipelineStage),
       st.progress.bind (fun p => p.current_phase) = some bs →
       BACKEND_STAGE_MAP bs = some k →
       (usePipelineStage (some st)).currentStage = k) ∧
    (∀ (st : PipelineStatus) (k : PipelineStage),
       (match st.progress.bind (fun p => p.current_phase) with
        | some bs => BACKEND_STAGE_MAP bs
        | none => none) = none →
       STATUS_TO_STAGE st.status = some k →
       (usePipelineStage (some st)).currentStage = k) ∧
    (∀ st : PipelineStatus,
       (match st.progress.bind (fun p => p.current_phase) with
        | some bs => BACKEND_STAGE_MAP bs
        | none => none) = none →
       STATUS_TO_STAGE st.status = none →
       (usePipelineStage (some st)).currentStage = PipelineStage.detection) ∧
    STATUS_TO_STAGE PStatus.failed = some PipelineStage.detection ∧
    STATUS_TO_STAGE PStatus.cancelled = some PipelineStage.detection := by
  refine ⟨?_, ?_, ?_, rfl, rfl⟩
  · intro st bs k hbs hk
    simp [usePipelineStage, hbs, hk]
  · intro st k hnone hk
    cases hbs : st.progress.bind (fun p => p.current_phase) with
    | none => simp [usePipelineStage, hbs, hk]
    | some bs =>
        rw [hbs] at hnone
        simp only at hnone
        simp [usePipelineStage, hbs, hnone, hk]
  · intro st hnone hk
    cases hbs : st.progress.bind (fun p => p.current_phase) with
    | none => simp [usePipelineStage, hbs, hk]
    | some bs =>
        rw [hbs] at hnone
        simp only at hnone
        simp [usePipelineStage, hbs, hnone, hk]

/-- C9 witness: a backend phase "enrichment" overrides the coarse status
"running"; without a phase, "running" falls back to detection through the
record; "cancellation_requested" is absent from the record and defaults to
detection. -/
theorem stage_resolution_precedence_witness :
    (usePipelineStage (some stPhaseEnrichment)).currentStage = PipelineStage.enrichment ∧
    (usePipelineStage (some stRunning)).currentStage = PipelineStage.detection ∧
    (usePipelineStage (some stCancelReq)).currentStage = PipelineStage.detection :=
  ⟨stage_resolution_precedence.1 stPhaseEnrichment "enrichment" PipelineStage.enrichment rfl rfl,
   stage_resolution_precedence.2.1 stRunning PipelineStage.detection rfl rfl,
   stage_resolution_precedence.2.2.1 stCancelReq rfl rfl⟩

end GilbertBestilling
